import Mathlib

/-
Shallow embedding of the esp_syslog crate (rust-syslog-esp32).

The authoritative code is src/lib.rs.  The crate's `format`, `facility` and
`errors` modules (Severity, Facility, Formatter3164, Formatter5424, LogFormat,
ErrorKind) are declared there but their files are not part of the sources at
hand; those parts are modelled from the specification, each marked
"Modelled from the spec".  Environment effects (address resolution, socket
bind/connect, datagram sends, stream writes/flushes, logger registration) are
passed in explicitly: outcomes of fallible I/O operations are scripted by
fault lists, and successful sends are recorded as traces so that "performs
no I/O" is a provable statement about the model state.
-/

/-- Modelled from the spec: closed set of 8 severity codes 0–7
(Emergency..Debug); `src/format.rs` is absent. Constructor names follow the
crate's `LOG_*` convention (cf. `Facility::LOG_USER` in lib.rs doc examples). -/
inductive Severity where
  | LOG_EMERG
  | LOG_ALERT
  | LOG_CRIT
  | LOG_ERR
  | LOG_WARNING
  | LOG_NOTICE
  | LOG_INFO
  | LOG_DEBUG
deriving DecidableEq, Repr

/-- Modelled from the spec: the RFC integer code of a severity (0–7). -/
def Severity.code : Severity → Nat
  | .LOG_EMERG => 0
  | .LOG_ALERT => 1
  | .LOG_CRIT => 2
  | .LOG_ERR => 3
  | .LOG_WARNING => 4
  | .LOG_NOTICE => 5
  | .LOG_INFO => 6
  | .LOG_DEBUG => 7

/-- Modelled from the spec: closed set of 24 named facility codes 0–23
(`src/facility.rs` is absent); represented by the code itself. -/
abbrev Facility := Fin 24

/-- The RFC integer code of a facility (0–23). -/
def Facility.code (f : Facility) : Nat := f.val

/-- The USER facility (code 1; `<11>` = USER/err in the spec's end-to-end
scenario, 1*8 + 3). -/
def Facility.LOG_USER : Facility := ⟨1, by omega⟩

/-- Priority (`pub type Priority = u8`, lib.rs:81).  Computation modelled
from the spec: facility_code * 8 + severity_code; maximum 23*8+7 = 191, so it
fits in u8 and plain Nat arithmetic is faithful. -/
def priority (f : Facility) (s : Severity) : Nat := f.code * 8 + s.code

/-- The PRI field both formatters emit: the priority in decimal (Nat.repr:
no padding, no leading zeros) between angle brackets. -/
def priTag (f : Facility) (s : Severity) : String :=
  "<" ++ toString (priority f s) ++ ">"

/-- Configuration of the legacy (RFC 3164) formatter: fields as constructed
in lib.rs (facility, optional hostname, process name, pid). -/
structure Formatter3164 where
  facility : Facility
  hostname : Option String
  process : String
  pid : Nat
deriving DecidableEq, Repr

/-- Modelled from the spec: the legacy formatter's fallback token when the
hostname is absent (the spec names only "a defined fallback token"). -/
def hostnameFallback3164 : String := "localhost"

/-- Modelled from the spec (§4.2, §6): `<PRI>` immediately followed by the
timestamp, a space, hostname (or fallback), a space, `process[pid]: `, then
the message.  The timestamp, read from the clock in the source, is passed as
its rendered text.  Grouped right-associatively so the PRI tag is a
definitional head. -/
def Formatter3164.render (f : Formatter3164) (sev : Severity) (msg ts : String) : String :=
  priTag f.facility sev ++
    (ts ++ (" " ++ ((f.hostname.getD hostnameFallback3164) ++
      (" " ++ (f.process ++ ("[" ++ (toString f.pid ++ ("]: " ++ msg))))))))

/-- Modelled from the spec: structured-data of the RFC 5424 formatter, a
mapping from element name to key/value pairs, in caller insertion order. -/
abbrev StructuredData := List (String × List (String × String))

/-- Modelled from the spec: escaping of one character of a structured-data
value (`"`, `]` and `\` are escaped with a backslash). -/
def escapeSDChar (c : Char) : String :=
  if c = '"' ∨ c = ']' ∨ c = '\\' then "\\" ++ String.singleton c
  else String.singleton c

/-- Escape a whole structured-data value. -/
def escapeSDValue (v : String) : String :=
  String.join (v.data.map escapeSDChar)

/-- Modelled from the spec: one structured-data element, rendered as
`[name key="value" ...]` with values escaped. -/
def renderSDElement (e : String × List (String × String)) : String :=
  "[" ++ e.1 ++
    String.join (e.2.map (fun kv => " " ++ kv.1 ++ "=\"" ++ escapeSDValue kv.2 ++ "\"")) ++
    "]"

/-- Modelled from the spec: the structured-data section. An empty mapping
renders as the single `-`; otherwise the elements are concatenated in the
order the caller inserted them. -/
def renderSD : StructuredData → String
  | [] => "-"
  | e :: rest => String.join ((e :: rest).map renderSDElement)

/-- Configuration of the structured (RFC 5424) formatter: same field shape
as Formatter3164 (cf. examples/rfc5424.rs). -/
structure Formatter5424 where
  facility : Facility
  hostname : Option String
  process : String
  pid : Nat
deriving DecidableEq, Repr

/-- Modelled from the spec (§4.3, §6): the part of the 5424 line between the
PRI tag and the structured-data section — version token `1`, timestamp,
hostname or `-`, app-name (process or `-` if empty), proc-id, msg-id,
each space-separated. -/
def Formatter5424.headerRest (f : Formatter5424) (mid : Nat) (ts : String) : String :=
  "1 " ++ (ts ++ (" " ++ (f.hostname.getD "-" ++
    (" " ++ ((if f.process = "" then "-" else f.process) ++
      (" " ++ (toString f.pid ++ (" " ++ (toString mid ++ " ")))))))))

/-- Modelled from the spec: the structured formatter's rendering of a
`(msg-id, structured-data, text)` payload. -/
def Formatter5424.render (f : Formatter5424) (sev : Severity)
    (p : Nat × StructuredData × String) (ts : String) : String :=
  priTag f.facility sev ++
    (Formatter5424.headerRest f p.1 ts ++ (renderSD p.2.1 ++ (" " ++ p.2.2)))

/-- An I/O error token (std::io::Error carries only a message here). -/
structure IOError where
  msg : String
deriving DecidableEq, Repr

/-- A resolved socket address. -/
structure SocketAddr where
  host : String
  port : Nat
deriving DecidableEq, Repr

/-- A bound UDP socket.  `sendFaults` scripts whether each upcoming send_to
fails; `sentDatagrams` is the trace of datagrams actually handed to the
network (the observable I/O). -/
structure UdpSocket where
  sendFaults : List Bool
  sentDatagrams : List String
deriving DecidableEq, Repr

/-- A `BufWriter<TcpStream>`: writes append to `buffer`; flush moves the
buffer to `flushed` (delivered data).  `writeFaults`/`flushFaults` script
failures of the underlying stream. -/
structure BufStream where
  writeFaults : List Bool
  flushFaults : List Bool
  buffer : String
  flushed : List String
deriving DecidableEq, Repr

/-- `LoggerBackend` (lib.rs:151-154): Udp(socket, fixed peer addr) or
Tcp(buffered stream). -/
inductive LoggerBackend where
  | Udp (socket : UdpSocket) (addr : SocketAddr)
  | Tcp (stream : BufStream)
deriving DecidableEq, Repr

/-- Embedding of `Write::write_fmt` for LoggerBackend (lib.rs:165-173):
Udp formats the arguments and sends them as one datagram to the fixed peer;
Tcp appends to the buffered stream.  An empty fault script means the
operation succeeds. -/
def LoggerBackend.write_fmt : LoggerBackend → String → Except IOError Unit × LoggerBackend
  | .Udp sock addr, message =>
    match sock.sendFaults with
    | true :: rest => (.error ⟨"send_to failed"⟩, .Udp ⟨rest, sock.sentDatagrams⟩ addr)
    | false :: rest => (.ok (), .Udp ⟨rest, sock.sentDatagrams ++ [message]⟩ addr)
    | [] => (.ok (), .Udp ⟨[], sock.sentDatagrams ++ [message]⟩ addr)
  | .Tcp st, message =>
    match st.writeFaults with
    | true :: rest => (.error ⟨"write failed"⟩, .Tcp { st with writeFaults := rest })
    | false :: rest => (.ok (), .Tcp { st with writeFaults := rest, buffer := st.buffer ++ message })
    | [] => (.ok (), .Tcp { st with buffer := st.buffer ++ message })

/-- Embedding of `Write::flush` for LoggerBackend (lib.rs:175-180):
Udp returns `Ok(())` touching nothing; Tcp flushes the BufWriter. -/
def LoggerBackend.flush : LoggerBackend → Except IOError Unit × LoggerBackend
  | .Udp sock addr => (.ok (), .Udp sock addr)
  | .Tcp st =>
    match st.flushFaults with
    | true :: rest => (.error ⟨"flush failed"⟩, .Tcp { st with flushFaults := rest })
    | false :: rest =>
      (.ok (), .Tcp { st with flushFaults := rest, buffer := "", flushed := st.flushed ++ [st.buffer] })
    | [] => (.ok (), .Tcp { st with buffer := "", flushed := st.flushed ++ [st.buffer] })

/-- Modelled from the spec: the `LogFormat` trait (src/format.rs is absent).
`format` renders one message at a given severity and writes it through the
backend; the current timestamp is passed as rendered text. -/
structure LogFormat (Msg : Type) where
  format : LoggerBackend → Severity → Msg → String → Except IOError Unit × LoggerBackend

/-- Modelled from the spec: trait helper, forwards with fixed LOG_EMERG. -/
def LogFormat.emerg {Msg : Type} (f : LogFormat Msg) (w : LoggerBackend) (m : Msg) (ts : String) :=
  f.format w .LOG_EMERG m ts

/-- Modelled from the spec: trait helper, forwards with fixed LOG_ALERT. -/
def LogFormat.alert {Msg : Type} (f : LogFormat Msg) (w : LoggerBackend) (m : Msg) (ts : String) :=
  f.format w .LOG_ALERT m ts

/-- Modelled from the spec: trait helper, forwards with fixed LOG_CRIT. -/
def LogFormat.crit {Msg : Type} (f : LogFormat Msg) (w : LoggerBackend) (m : Msg) (ts : String) :=
  f.format w .LOG_CRIT m ts

/-- Modelled from the spec: trait helper, forwards with fixed LOG_ERR. -/
def LogFormat.err {Msg : Type} (f : LogFormat Msg) (w : LoggerBackend) (m : Msg) (ts : String) :=
  f.format w .LOG_ERR m ts

/-- Modelled from the spec: trait helper, forwards with fixed LOG_WARNING. -/
def LogFormat.warning {Msg : Type} (f : LogFormat Msg) (w : LoggerBackend) (m : Msg) (ts : String) :=
  f.format w .LOG_WARNING m ts

/-- Modelled from the spec: trait helper, forwards with fixed LOG_NOTICE. -/
def LogFormat.notice {Msg : Type} (f : LogFormat Msg) (w : LoggerBackend) (m : Msg) (ts : String) :=
  f.format w .LOG_NOTICE m ts

/-- Modelled from the spec: trait helper, forwards with fixed LOG_INFO. -/
def LogFormat.info {Msg : Type} (f : LogFormat Msg) (w : LoggerBackend) (m : Msg) (ts : String) :=
  f.format w .LOG_INFO m ts

/-- Modelled from the spec: trait helper, forwards with fixed LOG_DEBUG. -/
def LogFormat.debug {Msg : Type} (f : LogFormat Msg) (w : LoggerBackend) (m : Msg) (ts : String) :=
  f.format w .LOG_DEBUG m ts

/-- `Logger` (lib.rs:84-87), specialized to the crate's only backend type;
generic over the formatter value as in the source. -/
structure Logger (F : Type) where
  formatter : F
  backend : LoggerBackend

/-- `Logger::emerg` (lib.rs:94-99): forwards to the formatter against the
owned backend, returning the result unchanged. -/
def Logger.emerg {Msg : Type} (l : Logger (LogFormat Msg)) (m : Msg) (ts : String) :
    Except IOError Unit × Logger (LogFormat Msg) :=
  let r := l.formatter.emerg l.backend m ts
  (r.1, { l with backend := r.2 })

/-- `Logger::alert` (lib.rs:101-106). -/
def Logger.alert {Msg : Type} (l : Logger (LogFormat Msg)) (m : Msg) (ts : String) :
    Except IOError Unit × Logger (LogFormat Msg) :=
  let r := l.formatter.alert l.backend m ts
  (r.1, { l with backend := r.2 })

/-- `Logger::crit` (lib.rs:108-113). -/
def Logger.crit {Msg : Type} (l : Logger (LogFormat Msg)) (m : Msg) (ts : String) :
    Except IOError Unit × Logger (LogFormat Msg) :=
  let r := l.formatter.crit l.backend m ts
  (r.1, { l with backend := r.2 })

/-- `Logger::err` (lib.rs:115-120). -/
def Logger.err {Msg : Type} (l : Logger (LogFormat Msg)) (m : Msg) (ts : String) :
    Except IOError Unit × Logger (LogFormat Msg) :=
  let r := l.formatter.err l.backend m ts
  (r.1, { l with backend := r.2 })

/-- `Logger::warning` (lib.rs:122-127). -/
def Logger.warning {Msg : Type} (l : Logger (LogFormat Msg)) (m : Msg) (ts : String) :
    Except IOError Unit × Logger (LogFormat Msg) :=
  let r := l.formatter.warning l.backend m ts
  (r.1, { l with backend := r.2 })

/-- `Logger::notice` (lib.rs:129-134). -/
def Logger.notice {Msg : Type} (l : Logger (LogFormat Msg)) (m : Msg) (ts : String) :
    Except IOError Unit × Logger (LogFormat Msg) :=
  let r := l.formatter.notice l.backend m ts
  (r.1, { l with backend := r.2 })

/-- `Logger::info` (lib.rs:136-141). -/
def Logger.info {Msg : Type} (l : Logger (LogFormat Msg)) (m : Msg) (ts : String) :
    Except IOError Unit × Logger (LogFormat Msg) :=
  let r := l.formatter.info l.backend m ts
  (r.1, { l with backend := r.2 })

/-- `Logger::debug` (lib.rs:143-148). -/
def Logger.debug {Msg : Type} (l : Logger (LogFormat Msg)) (m : Msg) (ts : String) :
    Except IOError Unit × Logger (LogFormat Msg) :=
  let r := l.formatter.debug l.backend m ts
  (r.1, { l with backend := r.2 })

/-- Modelled from the spec: the `LogFormat<String>` implementation of
Formatter3164 — render the line, write it through the backend with
`write_fmt`. -/
def Formatter3164.toLogFormat (f : Formatter3164) : LogFormat String :=
  ⟨fun w sev msg ts => w.write_fmt (f.render sev msg ts)⟩

/-- The external log facade's levels, with the crate's discriminants
Error=1 .. Trace=5 (embedding of `log::Level` as consumed by lib.rs). -/
inductive Level where
  | Error
  | Warn
  | Info
  | Debug
  | Trace
deriving DecidableEq, Repr

/-- Discriminant of a facade level. -/
def Level.toNat : Level → Nat
  | .Error => 1
  | .Warn => 2
  | .Info => 3
  | .Debug => 4
  | .Trace => 5

/-- The facade's level filter (embedding of `log::LevelFilter`). -/
inductive LevelFilter where
  | Off
  | Error
  | Warn
  | Info
  | Debug
  | Trace
deriving DecidableEq, Repr

/-- Discriminant of a level filter. -/
def LevelFilter.toNat : LevelFilter → Nat
  | .Off => 0
  | .Error => 1
  | .Warn => 2
  | .Info => 3
  | .Debug => 4
  | .Trace => 5

/-- A facade record as consumed by BasicLogger::log: its level and its
arguments already rendered to text (`format!("{}", record.args())`). -/
structure LogRecord where
  level : Level
  args : String
deriving DecidableEq, Repr

/-- Embedding of `BasicLogger::enabled` (lib.rs:232-234):
`metadata.level() <= log::max_level() && metadata.level() <= log::STATIC_MAX_LEVEL`,
comparisons in the log crate's discriminant order.  The process-wide
`max_level` and the compile-time `STATIC_MAX_LEVEL` are external state,
passed as inputs (STATIC_MAX_LEVEL is Trace in a default build). -/
def BasicLogger.enabled (lvl : Level) (maxLevel staticMax : LevelFilter) : Bool :=
  decide (lvl.toNat ≤ maxLevel.toNat) && decide (lvl.toNat ≤ staticMax.toNat)

/-- Embedding of `BasicLogger::log` (lib.rs:236-247): render the record's
arguments, dispatch on the level, and discard the returned Result (the
source's `match ...;`).  The mutex-guarded Logger state is passed and
returned explicitly; the lock is transparent in this sequential embedding. -/
def BasicLogger.log (st : Logger (LogFormat String)) (record : LogRecord) (ts : String) :
    Logger (LogFormat String) :=
  let message := record.args
  (match record.level with
   | .Error => st.err message ts
   | .Warn => st.warning message ts
   | .Info => st.info message ts
   | .Debug => st.debug message ts
   | .Trace => st.debug message ts).2

/-- Embedding of `BasicLogger::flush` (lib.rs:249-251): forwards to the
backend's flush and discards its Result (`let _ = ...`). -/
def BasicLogger.flush (st : Logger (LogFormat String)) : Logger (LogFormat String) :=
  { st with backend := (st.backend.flush).2 }

/-- The level→severity mapping the spec claims for the facade adapter
(Error→err, Warn→warning, Info→info, Debug→debug, Trace→debug). -/
def dispatchSeverity : Level → Severity
  | .Error => .LOG_ERR
  | .Warn => .LOG_WARNING
  | .Info => .LOG_INFO
  | .Debug => .LOG_DEBUG
  | .Trace => .LOG_DEBUG

/-- Spec-side reading of "level below the configured maximum": strictly less
severe (more verbose) than the maximum — Debug is below Info.  In the log
crate's discriminant order that is a strictly larger discriminant. -/
def Level.isBelow (lvl : Level) (maxLevel : LevelFilter) : Prop :=
  maxLevel.toNat < lvl.toNat

/-- Modelled from the spec: the crate's error kind for setup failures
(src/errors.rs is absent; only Initialization is chained in lib.rs). -/
inductive ErrorKind where
  | Initialization
deriving DecidableEq, Repr

/-- Embedding of `udp` (lib.rs:184-205).  Address resolution of `server` and
the bind of `local` are environment effects; their outcomes are inputs.
Resolution failure, an empty resolved list (`next()` returning None) and
bind failure all chain to ErrorKind::Initialization; otherwise the first
resolved address becomes the fixed peer. -/
def udp {F : Type} (formatter : F) (serverResolved : Except IOError (List SocketAddr))
    (bindResult : Except IOError UdpSocket) : Except ErrorKind (Logger F) :=
  match serverResolved with
  | .error _ => .error .Initialization
  | .ok addrs =>
    match addrs with
    | [] => .error .Initialization
    | serverAddr :: _ =>
      match bindResult with
      | .error _ => .error .Initialization
      | .ok socket => .ok ⟨formatter, .Udp socket serverAddr⟩

/-- Embedding of `tcp` (lib.rs:208-215): connect failure chains to
ErrorKind::Initialization; on success the stream is wrapped in a BufWriter. -/
def tcp {F : Type} (formatter : F) (connectResult : Except IOError BufStream) :
    Except ErrorKind (Logger F) :=
  match connectResult with
  | .error _ => .error .Initialization
  | .ok stream => .ok ⟨formatter, .Tcp stream⟩

/-- Observable outcome of a setup routine: normal return (carrying the max
level it set), an error return, or a process panic. -/
inductive InitOutcome where
  | ok (maxLevel : LevelFilter)
  | err (k : ErrorKind)
  | panicked
deriving DecidableEq, Repr

/-- Embedding of `init_udp` (lib.rs:255-276).  The source calls
`udp(formatter, local, server).unwrap()`: an Err from the constructor panics
the process, modelled as `.panicked`.  Registration (log::set_logger) success
is the input `registerOk`; its failure chains to Initialization via `?`.
On full success the process max level is set to `log_level`. -/
def init_udp (serverResolved : Except IOError (List SocketAddr))
    (bindResult : Except IOError UdpSocket) (registerOk : Bool)
    (hostname : String) (facility : Facility) (log_level : LevelFilter)
    (process : String) (pid : Nat) : InitOutcome :=
  let formatter : Formatter3164 := ⟨facility, some hostname, process, pid⟩
  match udp formatter serverResolved bindResult with
  | .error _ => .panicked
  | .ok _ => if registerOk then .ok log_level else .err .Initialization

/-- Embedding of `init_tcp` (lib.rs:279-300): same shape, with
`tcp(formatter, server).unwrap()`. -/
def init_tcp (connectResult : Except IOError BufStream) (registerOk : Bool)
    (hostname : String) (facility : Facility) (log_level : LevelFilter)
    (process : String) (pid : Nat) : InitOutcome :=
  let formatter : Formatter3164 := ⟨facility, some hostname, process, pid⟩
  match tcp formatter connectResult with
  | .error _ => .panicked
  | .ok _ => if registerOk then .ok log_level else .err .Initialization

/-- Claim C1: for every Facility (0–23) and Severity (0–7) the computed
priority is facility*8 + severity, hence at most 191, and both formatters
place exactly this decimal value — `priTag`, the Nat's decimal representation
with no padding between angle brackets — at the head of their output as the
PRI field. -/
theorem priority_encoding_in_pri_field (fa : Facility) (s : Severity)
    (hostname : Option String) (process msg ts body : String) (pid mid : Nat)
    (sd : StructuredData) :
    priority fa s = fa.code * 8 + s.code ∧
    priority fa s ≤ 191 ∧
    (∃ rest, Formatter3164.render ⟨fa, hostname, process, pid⟩ s msg ts
        = priTag fa s ++ rest) ∧
    (∃ rest, Formatter5424.render ⟨fa, hostname, process, pid⟩ s (mid, sd, body) ts
        = priTag fa s ++ rest) := by
  refine ⟨rfl, ?_, ⟨_, rfl⟩, ⟨_, rfl⟩⟩
  have h1 : fa.val < 24 := fa.isLt
  have h2 : s.code ≤ 7 := by cases s <;> decide
  simp only [priority, Facility.code]
  omega

/-- Claim C2: with the default compile-time cap (STATIC_MAX_LEVEL = Trace),
the facade adapter's enabled(level) returns false exactly when the level is
below the configured process-wide maximum — strictly less severe than it —
and true otherwise. -/
theorem enabled_false_iff_below_max (lvl : Level) (maxLevel : LevelFilter) :
    BasicLogger.enabled lvl maxLevel LevelFilter.Trace = false ↔ Level.isBelow lvl maxLevel := by
  cases lvl <;> cases maxLevel <;> simp only [Level.isBelow] <;> decide

/-- Claim C3 (code bug): the setup routines call `.unwrap()` on the
constructor result (lib.rs:270, 294), so a resolution yielding no usable
address, a resolution failure, a bind failure, or a TCP connect failure
panics the process instead of surfacing the Initialization error the
constructor had produced. -/
theorem init_unwrap_panics_on_setup_failure :
    init_udp (.ok []) (.ok ⟨[], []⟩) true "host" Facility.LOG_USER LevelFilter.Info "proc" 0
      = InitOutcome.panicked ∧
    init_udp (.error ⟨"resolution failed"⟩) (.ok ⟨[], []⟩) true "host" Facility.LOG_USER
      LevelFilter.Info "proc" 0 = InitOutcome.panicked ∧
    init_udp (.ok [⟨"10.0.0.1", 514⟩]) (.error ⟨"bind failed"⟩) true "host" Facility.LOG_USER
      LevelFilter.Info "proc" 0 = InitOutcome.panicked ∧
    init_tcp (.error ⟨"connect failed"⟩) true "host" Facility.LOG_USER LevelFilter.Info
      "proc" 0 = InitOutcome.panicked :=
  ⟨rfl, rfl, rfl, rfl⟩

/-- Claim C4: for a non-empty structured-data mapping the structured
formatter renders the elements as the in-order concatenation of their
renderings — the caller's insertion order of the list — after a header that
does not depend on the mapping; and rendering the identical mapping twice
yields byte-identical output. -/
theorem sd_insertion_order_and_determinism (f : Formatter5424) (sev : Severity)
    (mid : Nat) (sd : StructuredData) (body ts : String) (hne : sd ≠ []) :
    Formatter5424.render f sev (mid, sd, body) ts
      = priTag f.facility sev ++ (Formatter5424.headerRest f mid ts
          ++ (String.join (sd.map renderSDElement) ++ (" " ++ body))) ∧
    ∀ sd2 : StructuredData, sd2 = sd →
      Formatter5424.render f sev (mid, sd2, body) ts
        = Formatter5424.render f sev (mid, sd, body) ts := by
  constructor
  · cases sd with
    | nil => exact absurd rfl hne
    | cons e rest => rfl
  · intro sd2 h
    rw [h]

/-- Witness for C4 at a concrete one-element mapping. -/
theorem sd_insertion_order_and_determinism_witness :
    ([("exampleSDID", [("iut", "3")])] : StructuredData) ≠ [] ∧
    Formatter5424.render ⟨Facility.LOG_USER, none, "myprogram", 0⟩ Severity.LOG_ERR
        (1, [("exampleSDID", [("iut", "3")])], "hello") "TS"
      = priTag Facility.LOG_USER Severity.LOG_ERR ++
          (Formatter5424.headerRest ⟨Facility.LOG_USER, none, "myprogram", 0⟩ 1 "TS"
            ++ (String.join (([("exampleSDID", [("iut", "3")])] : StructuredData).map renderSDElement)
              ++ (" " ++ "hello"))) :=
  ⟨by decide,
   (sd_insertion_order_and_determinism ⟨Facility.LOG_USER, none, "myprogram", 0⟩
      Severity.LOG_ERR 1 [("exampleSDID", [("iut", "3")])] "hello" "TS" (by decide)).1⟩

/-- Claim C5: the facade dispatch maps Error→err, Warn→warning, Info→info,
Debug→debug and Trace→debug (collapsed): BasicLogger.log formats the record
with exactly `dispatchSeverity record.level` and writes that line. -/
theorem facade_level_mapping (f : Formatter3164) (backend : LoggerBackend)
    (r : LogRecord) (ts : String) :
    BasicLogger.log ⟨f.toLogFormat, backend⟩ r ts
      = ⟨f.toLogFormat, (backend.write_fmt (f.render (dispatchSeverity r.level) r.args ts)).2⟩ := by
  obtain ⟨lvl, args⟩ := r
  cases lvl <;> rfl

/-- Claim C6: the facade dispatch calls the severity method matching the
record's level with the record's arguments as text and returns exactly that
method's post-state, discarding the method's Result — whatever it was, ok or
error, nothing reaches the facade caller; the facade flush forwards to the
transport's flush (still attempted: the new backend is flush's post-state)
and likewise discards its outcome, touching no other Logger state. -/
theorem facade_discards_write_and_flush_outcomes (st : Logger (LogFormat String))
    (r : LogRecord) (ts : String) :
    (∃ res : Except IOError Unit,
      (match r.level with
       | .Error => st.err r.args ts
       | .Warn => st.warning r.args ts
       | .Info => st.info r.args ts
       | .Debug => st.debug r.args ts
       | .Trace => st.debug r.args ts) = (res, BasicLogger.log st r ts)) ∧
    (∃ res : Except IOError Unit,
      st.backend.flush = (res, (BasicLogger.flush st).backend)) ∧
    (BasicLogger.flush st).formatter = st.formatter := by
  refine ⟨?_, ⟨(st.backend.flush).1, rfl⟩, rfl⟩
  obtain ⟨lvl, args⟩ := r
  cases lvl <;> exact ⟨_, rfl⟩

/-- Claim C7: each of the eight dispatcher methods forwards the message with
its fixed severity to the formatter's format operation against the owned
backend, returns that operation's result unchanged, and leaves the formatter
field untouched — the backend becomes exactly what the format operation
produced. -/
theorem dispatcher_methods_forward_fixed_severity {Msg : Type}
    (l : Logger (LogFormat Msg)) (m : Msg) (ts : String) :
    l.emerg m ts = ((l.formatter.format l.backend .LOG_EMERG m ts).1,
      ⟨l.formatter, (l.formatter.format l.backend .LOG_EMERG m ts).2⟩) ∧
    l.alert m ts = ((l.formatter.format l.backend .LOG_ALERT m ts).1,
      ⟨l.formatter, (l.formatter.format l.backend .LOG_ALERT m ts).2⟩) ∧
    l.crit m ts = ((l.formatter.format l.backend .LOG_CRIT m ts).1,
      ⟨l.formatter, (l.formatter.format l.backend .LOG_CRIT m ts).2⟩) ∧
    l.err m ts = ((l.formatter.format l.backend .LOG_ERR m ts).1,
      ⟨l.formatter, (l.formatter.format l.backend .LOG_ERR m ts).2⟩) ∧
    l.warning m ts = ((l.formatter.format l.backend .LOG_WARNING m ts).1,
      ⟨l.formatter, (l.formatter.format l.backend .LOG_WARNING m ts).2⟩) ∧
    l.notice m ts = ((l.formatter.format l.backend .LOG_NOTICE m ts).1,
      ⟨l.formatter, (l.formatter.format l.backend .LOG_NOTICE m ts).2⟩) ∧
    l.info m ts = ((l.formatter.format l.backend .LOG_INFO m ts).1,
      ⟨l.formatter, (l.formatter.format l.backend .LOG_INFO m ts).2⟩) ∧
    l.debug m ts = ((l.formatter.format l.backend .LOG_DEBUG m ts).1,
      ⟨l.formatter, (l.formatter.format l.backend .LOG_DEBUG m ts).2⟩) :=
  ⟨rfl, rfl, rfl, rfl, rfl, rfl, rfl, rfl⟩

/-- Claim C8: flushing the connectionless (UDP) transport always returns
Ok(()) and performs no I/O — the socket, its sent-datagram trace and the
peer address are all unchanged. -/
theorem udp_flush_is_successful_noop (sock : UdpSocket) (addr : SocketAddr) :
    LoggerBackend.flush (.Udp sock addr) = (Except.ok (), .Udp sock addr) :=
  rfl

/-- Claim C9: the udp constructor records the first resolved address as the
fixed peer when resolution returns several; an empty resolution, a failed
resolution and a failed bind each return ErrorKind::Initialization. -/
theorem udp_takes_first_addr_or_init_error {F : Type} (formatter : F)
    (a : SocketAddr) (rest : List SocketAddr) (sock : UdpSocket)
    (e e2 : IOError) (bindResult : Except IOError UdpSocket) :
    udp formatter (.ok (a :: rest)) (.ok sock) = .ok ⟨formatter, .Udp sock a⟩ ∧
    udp formatter (.ok []) bindResult = .error .Initialization ∧
    udp formatter (.error e) bindResult = .error .Initialization ∧
    udp formatter (.ok (a :: rest)) (.error e2) = .error .Initialization :=
  ⟨rfl, rfl, rfl, rfl⟩

/-- Claim C10: BasicLogger::log never consults enabled() or the configured
maximum level — even for a record whose level is disabled under some
configured maximum, the formatted write is attempted: on a fault-free UDP
backend the rendered line is sent as a datagram. -/
theorem log_writes_regardless_of_level (f : Formatter3164) (sent : List String)
    (addr : SocketAddr) (r : LogRecord) (ts : String) (maxLevel staticMax : LevelFilter)
    (hdisabled : BasicLogger.enabled r.level maxLevel staticMax = false) :
    BasicLogger.log ⟨f.toLogFormat, .Udp ⟨[], sent⟩ addr⟩ r ts
      = ⟨f.toLogFormat,
          .Udp ⟨[], sent ++ [f.render (dispatchSeverity r.level) r.args ts]⟩ addr⟩ := by
  obtain ⟨lvl, args⟩ := r
  cases lvl <;> rfl

/-- Witness for C10: a Trace record under max level Error (enabled = false)
still produces the datagram. -/
theorem log_writes_regardless_of_level_witness :
    BasicLogger.enabled Level.Trace LevelFilter.Error LevelFilter.Trace = false ∧
    BasicLogger.log ⟨Formatter3164.toLogFormat ⟨Facility.LOG_USER, some "h", "p", 0⟩,
        .Udp ⟨[], []⟩ ⟨"10.0.0.1", 514⟩⟩ ⟨Level.Trace, "m"⟩ "TS"
      = ⟨Formatter3164.toLogFormat ⟨Facility.LOG_USER, some "h", "p", 0⟩,
          .Udp ⟨[], [Formatter3164.render ⟨Facility.LOG_USER, some "h", "p", 0⟩
            (dispatchSeverity Level.Trace) "m" "TS"]⟩ ⟨"10.0.0.1", 514⟩⟩ :=
  ⟨by decide,
   log_writes_regardless_of_level ⟨Facility.LOG_USER, some "h", "p", 0⟩ [] ⟨"10.0.0.1", 514⟩
     ⟨Level.Trace, "m"⟩ "TS" LevelFilter.Error LevelFilter.Trace (by decide)⟩
